import Mathlib

/-!
Verification development for the `retryhttp` Go package: a retrying
`http.RoundTripper` (transport.go), default retry and delay policies
(default.go), an adaptive client-side throttler (throttler.go) and a
deferred-cancellation response-body wrapper (cancelreader.go).

The Go code is shallowly embedded: machine floats are modelled as exact
rationals, Go `int`/`int64` as `Int`, `uint64` counters as `Nat` (with the
one wrapping subtraction made explicit), and external effects — the
underlying round tripper, the pseudo-random generator, `bytes.Reader.Seek`,
HTTP-date parsing and context cancellation — as explicit oracle parameters.
Error values are modelled by the inductive `GoError`, rich enough for the
`errors.Is` / `errors.As` traversals the package performs.
-/

namespace Retryhttp

/-! ### Error model

Go errors as a tree: `errors.Join` and `fmt.Errorf("%w: ...")` build inner
nodes, sentinels from `errors.New` and concrete network errors are leaves.
Message text of wrapped errors is not modelled (no code under verification
inspects it). `dns` stands for `*net.DNSError` (a `net.Error` whose
`Timeout()` is its `IsTimeout` field), `netError` for any other value
implementing `net.Error`, and `deadlineExceeded` for
`context.DeadlineExceeded` (which satisfies `net.Error` with
`Timeout() = true`). -/
inductive GoError where
  | sentinel (msg : String)
  | dns (isTimeout : Bool)
  | netError (isTimeout : Bool)
  | deadlineExceeded
  | basic (msg : String)
  | join (a b : GoError)
  | wrap (inner : GoError)
deriving DecidableEq, Repr

/-- Sentinel from transport.go: buffering the request body failed. -/
def ErrBufferingBody : GoError :=
  .sentinel "error buffering body before first attempt"

/-- Sentinel from transport.go: rewinding the buffered body failed. -/
def ErrSeekingBody : GoError :=
  .sentinel "error seeking body buffer back to beginning after attempt"

/-- Sentinel from transport.go: all retry attempts have been exhausted. -/
def ErrRetriesExhausted : GoError :=
  .sentinel "max retries exhausted"

/-- `errors.Is(err, target)`: compare the error itself, then walk the unwrap
tree (a `join` exposes both children, a `wrap` its inner error). None of the
modelled targets define an `Is` method. -/
def errorsIs : GoError → GoError → Bool
  | .join a b, target =>
      (GoError.join a b == target) || errorsIs a target || errorsIs b target
  | .wrap inner, target => (GoError.wrap inner == target) || errorsIs inner target
  | e, target => e == target

/-- Whether the unwrap tree contains a `*net.DNSError`, i.e.
`errors.As(err, &dnse)` for `var dnse *net.DNSError`. `join` and `wrap`
nodes are themselves never `*net.DNSError`. -/
def hasDNSErr : GoError → Bool
  | .join a b => hasDNSErr a || hasDNSErr b
  | .wrap inner => hasDNSErr inner
  | .dns _ => true
  | _ => false

/-- errors.go `IsDNSErr`. -/
def IsDNSErr (err : GoError) : Bool := hasDNSErr err

/-- Whether a leaf implements the `net.Error` interface. -/
def isNetErrorNode : GoError → Bool
  | .dns _ => true
  | .netError _ => true
  | .deadlineExceeded => true
  | _ => false

/-- The `Timeout()` method of a `net.Error` leaf. -/
def netErrTimeout : GoError → Bool
  | .dns t => t
  | .netError t => t
  | .deadlineExceeded => true
  | _ => false

/-- The first `net.Error` in the unwrap tree, in `errors.As` traversal order
(node before children, `join` children left to right). -/
def firstNetError : GoError → Option GoError
  | .join a b =>
      match firstNetError a with
      | some e => some e
      | none => firstNetError b
  | .wrap inner => firstNetError inner
  | e => if isNetErrorNode e then some e else none

/-- errors.go `IsTimeoutErr`: `errors.As(err, &netErr) && netErr.Timeout()`. -/
def IsTimeoutErr (err : GoError) : Bool :=
  match firstNetError err with
  | some ne => netErrTimeout ne
  | none => false

/-! ### HTTP data model -/

/-- `http.Header.Get`: first value stored under the (canonical) key, `""`
when the key is absent. Headers are modelled as association lists of
canonical keys. -/
def headerGet (h : List (String × String)) (key : String) : String :=
  match h.find? (fun p => p.fst == key) with
  | some p => p.snd
  | none => ""

/-- The parts of `*http.Request` the package reads. -/
structure Request where
  method : String
  header : List (String × String)
deriving DecidableEq, Repr

/-- The parts of `*http.Response` the package reads. -/
structure Response where
  statusCode : Int
  header : List (String × String)
deriving DecidableEq, Repr

/-- transport.go `Attempt`. `Count` is a Go `int` that the transport always
sets to 1 for the initial attempt and increments per retry; it is modelled
as `Nat`. -/
structure Attempt where
  count : Nat
  req : Request
  res : Option Response
  err : Option GoError
deriving DecidableEq, Repr

/-! ### default.go — retry policy -/

/-- default.go `CustomizedShouldRetryFnOptions`. -/
structure CustomizedShouldRetryFnOptions where
  idempotentMethods : List String
  retryableStatusCodes : List Int

/-- default.go `guessIdempotent`. The Go code looks methods up in a
`map[string]bool` built from the option list; membership in the list is the
same predicate. -/
def guessIdempotent (req : Request) (idempotentMethods : List String) : Bool :=
  if headerGet req.header "Idempotency-Key" ≠ "" ∨
      headerGet req.header "X-Idempotency-Key" ≠ "" then
    true
  else
    idempotentMethods.contains req.method

/-- default.go `CustomizedShouldRetryFn` (the closure it returns). When
`attempt.Err == nil` the Go code dereferences `attempt.Res` with no nil
check; the result is `none` exactly when that dereference would panic. -/
def CustomizedShouldRetryFn (options : CustomizedShouldRetryFnOptions)
    (attempt : Attempt) : Option Bool :=
  let idempotent := guessIdempotent attempt.req options.idempotentMethods
  match attempt.err with
  | some e =>
      if IsDNSErr e then some true
      else some (idempotent && IsTimeoutErr e)
  | none =>
      match attempt.res with
      | none => none
      | some res =>
          if res.statusCode = 429 ∨ headerGet res.header "Retry-After" ≠ "" then
            some true
          else
            some (idempotent && options.retryableStatusCodes.contains res.statusCode)

/-- default.go `DefaultShouldRetryFn`: `CustomizedShouldRetryFn` at the
RFC 9110 idempotent methods and retryable statuses 502, 503. -/
def DefaultShouldRetryFn : Attempt → Option Bool :=
  CustomizedShouldRetryFn
    { idempotentMethods := ["GET", "HEAD", "OPTIONS", "TRACE", "PUT", "DELETE"]
      retryableStatusCodes := [502, 503] }

/-! ### default.go — delay policy

Floating-point arithmetic is modelled exactly over `ℚ`; for the exponential
backoff path every intermediate `float64` value the Go code computes is
exactly representable at the counts and defaults any claim touches, so the
rational model agrees with the float one there. Randomness and the
HTTP-date parse are oracle parameters:
* `r m` stands for `prng.Int63n(m)`, contractually `< m` for `0 < m`;
* `jitterDraw` and `coin` stand for the two `prng.Float64()` calls, in `[0,1)`;
* `untilDate s` stands for `time.Until(t)` for `t, err := time.Parse(http.TimeFormat, s)`,
  `none` when the parse fails.
Durations are integer nanoseconds (`time.Duration` is an `int64`). -/

/-- The numeric value of a decimal digit accumulated left to right; `none`
on the first non-digit. -/
def digitsToNat : List Char → Nat → Option Nat
  | [], acc => some acc
  | c :: rest, acc =>
      if c.isDigit then digitsToNat rest (acc * 10 + (c.toNat - 48))
      else none

/-- `strconv.Atoi`: an optional sign followed by at least one decimal digit.
(The 64-bit range error is not modelled; no claim involves values near it.) -/
def atoi (s : String) : Option Int :=
  match s.data with
  | [] => none
  | '+' :: rest =>
      if rest = [] then none else (digitsToNat rest 0).map (fun n => (n : Int))
  | '-' :: rest =>
      if rest = [] then none else (digitsToNat rest 0).map (fun n => -(n : Int))
  | cs => (digitsToNat cs 0).map (fun n => (n : Int))

/-- Go's float-to-integer conversion `time.Duration(f)`: truncation toward
zero. -/
def ratTrunc (q : ℚ) : Int :=
  if 0 ≤ q then Int.floor q else Int.ceil q

/-- default.go `CustomizedDelayFnOptions`; `Base` and `Cap` in nanoseconds. -/
structure CustomizedDelayFnOptions where
  base : Nat
  capd : Nat
  jitterMagnitude : ℚ

/-- default.go `addJitter`: plus or minus `jitterDraw · magnitude` of the
duration, the sign picked by `coin`. -/
def addJitter (jitterDraw coin : ℚ) (d : Int) (magnitude : ℚ) : Int :=
  let f : ℚ := (d : ℚ)
  let mj : ℚ := f * magnitude
  let j : ℚ := jitterDraw * mj
  if coin < 1 / 2 then ratTrunc (f + j) else ratTrunc (f - j)

/-- default.go `expBackoff`: full-jitter exponential backoff,
`prng.Int63n(min(cap, base · 2^(attempt−1)))`. For `attempt ≥ 1` the `Nat`
exponent agrees with `math.Pow(2, float64(attempt-1))`. -/
def expBackoff (r : Nat → Nat) (attempt : Nat) (base capd : Nat) : Nat :=
  let v : Nat := base * 2 ^ (attempt - 1)
  r (min capd v)

/-- default.go `CustomizedDelayFn` (the closure it returns). -/
def CustomizedDelayFn (untilDate : String → Option Int) (jitterDraw coin : ℚ)
    (r : Nat → Nat) (options : CustomizedDelayFnOptions) (attempt : Attempt) : Int :=
  match attempt.res with
  | some res =>
      if headerGet res.header "Retry-After" ≠ "" then
        let retryAfterStr := headerGet res.header "Retry-After"
        match atoi retryAfterStr with
        | some i => addJitter jitterDraw coin (i * 1000000000) options.jitterMagnitude
        | none =>
            match untilDate retryAfterStr with
            | some d => addJitter jitterDraw coin d options.jitterMagnitude
            | none => (expBackoff r attempt.count options.base options.capd : Int)
      else (expBackoff r attempt.count options.base options.capd : Int)
  | none => (expBackoff r attempt.count options.base options.capd : Int)

/-- default.go `DefaultDelayFn`: `CustomizedDelayFn` with base 250ms, cap 10s
and jitter magnitude 0.333. -/
def DefaultDelayFn (untilDate : String → Option Int) (jitterDraw coin : ℚ)
    (r : Nat → Nat) (attempt : Attempt) : Int :=
  CustomizedDelayFn untilDate jitterDraw coin r
    { base := 250000000, capd := 10000000000, jitterMagnitude := 333 / 1000 } attempt

/-! ### throttler.go -/

/-- throttler.go `isAttemptRetry`: `attempt.Count > 1`. -/
def isAttemptRetry (attempt : Attempt) : Bool :=
  attempt.count > 1

/-- The `uint64` subtraction `total - overloaded` in `ShouldThrottle`,
wrapping modulo `2^64` (sound for counter values below `2^64`). -/
def uint64sub (a b : Nat) : Nat :=
  (a + 2 ^ 64 - b) % 2 ^ 64

/-- The state `defaultThrottler.ShouldThrottle` reads: the three sliding
window counters (the values `read()` returns at decision time) and the two
configured constants (Go `float64`, modelled as `ℚ`). -/
structure DefaultThrottlerState where
  totalReqs : Nat
  overloadedReqs : Nat
  retriedReqs : Nat
  k : ℚ
  retryBudget : ℚ

/-- throttler.go `defaultThrottler.ShouldThrottle`. `randDraw` stands for
`rand.Float64()`, in `[0,1)`. On a retry attempt with
`retried/total > retryBudget` the Go code returns `false` before reaching
the probabilistic check. (In Go, `retried/total` with `total = 0` is NaN and
every NaN comparison is false, so the budget branch is not taken; the `ℚ`
model, where division by zero is zero, agrees for the non-negative budgets
the throttler is constructed with.) -/
def ShouldThrottle (t : DefaultThrottlerState) (randDraw : ℚ)
    (attempt : Attempt) : Bool :=
  let total := t.totalReqs
  let fTotal : ℚ := (total : ℚ)
  if isAttemptRetry attempt ∧ (t.retriedReqs : ℚ) / fTotal > t.retryBudget then
    false
  else
    let overloaded := t.overloadedReqs
    let fAccepts : ℚ := (uint64sub total overloaded : ℚ)
    let p : ℚ := max 0 ((fTotal - t.k * fAccepts) / (fTotal + 1))
    decide (p > randDraw)

/-! ### cancelreader.go -/

/-- The observable state of a `cancelReader` and its captured
`context.CancelFunc`: how many times the handle has been invoked, whether
the context it cancels is cancelled (a `CancelFunc`'s effect is idempotent:
once cancelled, further invocations change nothing), and how many times the
wrapped body's own `Close` has run. -/
structure CancelState where
  cancelCalls : Nat
  ctxCancelled : Bool
  underlyingCloses : Nat
deriving DecidableEq, Repr

/-- cancelreader.go `cancelReader.Close`: `cr.cancel()` followed by
`cr.ReadCloser.Close()` — the handle is invoked on every call. -/
def cancelReaderClose (s : CancelState) : CancelState :=
  { cancelCalls := s.cancelCalls + 1
    ctxCancelled := true
    underlyingCloses := s.underlyingCloses + 1 }

/-! ### transport.go — `Transport.RoundTrip`

The attempt loop is embedded as a recursive function over an oracle that
fixes, per attempt index (1-based), the underlying round tripper's outcome,
the result of `bytes.Reader.Seek(0, 0)` on the buffered body, and whether
the parent context's `Done` channel wins the inter-attempt `select`. The
per-attempt timeout context and the `injectCancelReader` wrapping of the
returned response are not reflected in the loop's data (the timeout's
effect on an attempt is already absorbed into the oracle's outcome; the
wrapper is modelled separately by `cancelReaderClose`); draining the
response body before a retry has no observable effect here either.

The loop's result records, besides the response and error returned, how
many attempts were made, the byte sequence each attempt could read from the
request body (`none` when the raw, unbuffered stream was passed), and the
`Attempt` values handed to the retry and delay policies. The buffered body
is a `bytes.Reader`: `pos` is its read offset, an attempt reads it to the
end, and a successful `Seek(0, 0)` resets `pos` to 0. -/

/-- transport.go `DefaultMaxRetries` (a Go `int`). -/
def DefaultMaxRetries : Int := 3

/-- The configuration the attempt loop runs with, after `init` and the
per-call context overrides are resolved: `maxRetries`, `shouldRetryFn`,
`delayFn` (returning nanoseconds) and `preventRetryWithBody`. -/
structure TransportConfig where
  maxRetries : Int
  shouldRetryFn : Attempt → Bool
  delayFn : Attempt → Nat
  preventRetryWithBody : Bool

/-- One return of the underlying round tripper: `res, err := t.rt.RoundTrip(...)`. -/
structure Outcome where
  res : Option Response
  err : Option GoError
deriving DecidableEq, Repr

/-- The external world of one `RoundTrip` call: `transport n` the underlying
round tripper's outcome for attempt `n`; `seekErr n` the error of the
`br.Seek(0, 0)` performed after attempt `n` (always `none` for a real
`bytes.Reader`, kept abstract to keep the error branch live); `cancelled n`
whether `req.Context().Done()` wins the `select` after attempt `n`; and
`ctxErr` the value of `req.Context().Err()` then. -/
structure RTOracle where
  transport : Nat → Outcome
  seekErr : Nat → Option GoError
  cancelled : Nat → Bool
  ctxErr : GoError

/-- The request body as handed to `RoundTrip`: absent (`nil` or
`http.NoBody`), a stream whose full contents are `bs`, or a stream whose
buffering (`io.Copy`) fails. -/
inductive BodySpec where
  | noBody
  | bytes (bs : List Nat)
  | failing (e : GoError)
deriving DecidableEq, Repr

/-- What one `RoundTrip` call produced and did: the returned response and
error, the number of attempts made, per attempt the bytes it could read
from the request body (`none` = the raw unbuffered stream), and the
`Attempt` snapshots passed to `shouldRetryFn` and to `delayFn`. -/
structure RTResult where
  res : Option Response
  err : Option GoError
  attempts : Nat
  sent : List (Option (List Nat))
  retryConsults : List Attempt
  delayConsults : List Attempt
deriving DecidableEq, Repr

/-- The `for` loop of transport.go `Transport.RoundTrip` (the version with
`ErrRetriesExhausted`), entered with `attemptCount` attempts already made.
Source order per iteration: round trip, increment, `preventRetry` return,
exhaustion return (joining `ErrRetriesExhausted` onto a non-nil error),
`shouldRetryFn`, `delayFn`, rewind of the buffered body (failure returns an
error wrapping `ErrSeekingBody`), then the `select` racing the delay
against parent-context cancellation. -/
def roundTripLoop (cfg : TransportConfig) (o : RTOracle) (req : Request)
    (br : Option (List Nat)) (pos : Nat) (preventRetry : Bool)
    (attemptCount : Nat) : RTResult :=
  let n := attemptCount + 1
  let outcome := o.transport n
  let sentNow : Option (List Nat) := br.map (fun bs => bs.drop pos)
  if preventRetry then
    { res := outcome.res, err := outcome.err, attempts := n, sent := [sentNow]
      retryConsults := [], delayConsults := [] }
  else if (n : Int) - 1 ≥ cfg.maxRetries then
    let errOut := match outcome.err with
      | some e => some (GoError.join ErrRetriesExhausted e)
      | none => none
    { res := outcome.res, err := errOut, attempts := n, sent := [sentNow]
      retryConsults := [], delayConsults := [] }
  else
    let attempt : Attempt := { count := n, req := req, res := outcome.res, err := outcome.err }
    if !(cfg.shouldRetryFn attempt) then
      { res := outcome.res, err := outcome.err, attempts := n, sent := [sentNow]
        retryConsults := [attempt], delayConsults := [] }
    else
      let _delay := cfg.delayFn attempt
      match br with
      | some bs =>
          match o.seekErr n with
          | some _ =>
              { res := outcome.res, err := some (GoError.wrap ErrSeekingBody)
                attempts := n, sent := [sentNow]
                retryConsults := [attempt], delayConsults := [attempt] }
          | none =>
              if o.cancelled n then
                { res := none, err := some o.ctxErr, attempts := n, sent := [sentNow]
                  retryConsults := [attempt], delayConsults := [attempt] }
              else
                let r := roundTripLoop cfg o req (some bs) 0 preventRetry n
                { r with sent := sentNow :: r.sent
                         retryConsults := attempt :: r.retryConsults
                         delayConsults := attempt :: r.delayConsults }
      | none =>
          if o.cancelled n then
            { res := none, err := some o.ctxErr, attempts := n, sent := [sentNow]
              retryConsults := [attempt], delayConsults := [attempt] }
          else
            let r := roundTripLoop cfg o req none pos preventRetry n
            { r with sent := sentNow :: r.sent
                     retryConsults := attempt :: r.retryConsults
                     delayConsults := attempt :: r.delayConsults }
termination_by cfg.maxRetries.toNat + 1 - attemptCount
decreasing_by
  all_goals omega

/-- transport.go `Transport.RoundTrip` after config resolution: compute
`preventRetry`, buffer the body when one is present and retries are not
prevented (failure returns an error wrapping `ErrBufferingBody` with no
attempt made), then run the attempt loop. -/
def RoundTrip (cfg : TransportConfig) (o : RTOracle) (req : Request)
    (body : BodySpec) : RTResult :=
  let bodyPresent : Bool := body != BodySpec.noBody
  let preventRetry : Bool := bodyPresent && cfg.preventRetryWithBody
  if bodyPresent && !preventRetry then
    match body with
    | .failing _ =>
        { res := none, err := some (GoError.wrap ErrBufferingBody), attempts := 0
          sent := [], retryConsults := [], delayConsults := [] }
    | .bytes bs => roundTripLoop cfg o req (some bs) 0 false 0
    | .noBody => roundTripLoop cfg o req none 0 false 0
  else
    roundTripLoop cfg o req none 0 preventRetry 0

/-- The maximum-retries setting the loop runs with: the per-call context
override when set, else the instance setting (`WithMaxRetries`), else
`DefaultMaxRetries` (wired by `init`). -/
def effectiveMaxRetries (instanceVal ctxVal : Option Int) : Int :=
  match ctxVal with
  | some v => v
  | none =>
      match instanceVal with
      | some v => v
      | none => DefaultMaxRetries

/-- The `preventRetryWithBody` setting the loop runs with: the per-call
context override when set, else the instance setting. -/
def effectivePreventRetryWithBody (instanceVal : Bool) (ctxVal : Option Bool) : Bool :=
  match ctxVal with
  | some v => v
  | none => instanceVal

/-! ### Specification-side definitions

For the refinement claim about the default retry policy, the decision is
restated here from the specification's words, to be compared with the
embedding of default.go above. -/

/-- The spec's wording: a request is guessed idempotent iff an
`Idempotency-Key` or `X-Idempotency-Key` header is present or the method is
one of GET/HEAD/OPTIONS/TRACE/PUT/DELETE. -/
def specGuessIdempotent (req : Request) : Bool :=
  (headerGet req.header "Idempotency-Key" != "") ||
    (headerGet req.header "X-Idempotency-Key" != "") ||
    ["GET", "HEAD", "OPTIONS", "TRACE", "PUT", "DELETE"].contains req.method

/-- The spec's wording of the default retry decision: with an error, retry
iff it is a DNS error or the request is guessed idempotent and the error is
timeout/deadline-class; with no error, retry unconditionally on status 429
or a Retry-After response header, else retry iff guessed idempotent and the
status is 502 or 503. (Undefined — `none` — in the one case the code's
decision is: no error and no response.) -/
def specDefaultRetryDecision (attempt : Attempt) : Option Bool :=
  match attempt.err with
  | some e =>
      some (IsDNSErr e || (specGuessIdempotent attempt.req && IsTimeoutErr e))
  | none =>
      match attempt.res with
      | none => none
      | some res =>
          if res.statusCode = 429 ∨ headerGet res.header "Retry-After" ≠ "" then
            some true
          else
            some (specGuessIdempotent attempt.req &&
              decide (res.statusCode = 502 ∨ res.statusCode = 503))

/-! ### General lemmas about the embedded code -/

/-- `errors.Is` finds an error in itself. -/
theorem errorsIs_self (e : GoError) : errorsIs e e = true := by
  cases e <;> simp [errorsIs]

/-- The attempt loop makes at most `max (attemptCount+1) (maxRetries.toNat + 1)`
attempts in total, whatever the oracle, the policies and the body are. -/
theorem roundTripLoop_attempts_le (cfg : TransportConfig) (o : RTOracle) (req : Request)
    (br : Option (List Nat)) (pos : Nat) (preventRetry : Bool) (attemptCount : Nat) :
    (roundTripLoop cfg o req br pos preventRetry attemptCount).attempts ≤
      max (attemptCount + 1) (cfg.maxRetries.toNat + 1) := by
  rw [roundTripLoop]
  dsimp only
  split
  · simp
  · split
    · simp
    · split
      · simp
      · split
        · split
          · simp
          · split
            · simp
            · rename_i br bs x hseek hcanc
              have ih := roundTripLoop_attempts_le cfg o req (some bs) 0 preventRetry
                (attemptCount + 1)
              simp at ih ⊢
              omega
        · split
          · simp
          · have ih := roundTripLoop_attempts_le cfg o req none pos preventRetry
              (attemptCount + 1)
            simp at ih ⊢
            omega
termination_by cfg.maxRetries.toNat + 1 - attemptCount
decreasing_by all_goals omega

/-- When the loop runs with a buffered body at offset 0, every attempt reads
the full buffered byte sequence: the rewind before each retry resets the
reader to the start. -/
theorem roundTripLoop_sent_eq (cfg : TransportConfig) (o : RTOracle) (req : Request)
    (bs : List Nat) (preventRetry : Bool) (attemptCount : Nat) :
    ∀ x ∈ (roundTripLoop cfg o req (some bs) 0 preventRetry attemptCount).sent,
      x = some bs := by
  rw [roundTripLoop]
  dsimp only
  split
  · simp
  · split
    · simp
    · split
      · simp
      · split
        · simp
        · split
          · simp
          · have ih := roundTripLoop_sent_eq cfg o req bs preventRetry (attemptCount + 1)
            simp only [List.drop_zero, List.mem_cons]
            rintro x (rfl | hx)
            · rfl
            · exact ih x hx
termination_by cfg.maxRetries.toNat + 1 - attemptCount
decreasing_by all_goals omega

/-- With retries not prevented and `0 ≤ maxRetries`, the loop either returns
after at most `maxRetries.toNat` attempts (an early return: policy said
no, seek failed, or cancellation) or it runs the full `maxRetries.toNat + 1`
attempts and returns the last outcome with a non-nil error joined onto
`ErrRetriesExhausted`. -/
theorem roundTripLoop_exhaustion_char (cfg : TransportConfig) (o : RTOracle) (req : Request)
    (br : Option (List Nat)) (pos : Nat) (attemptCount : Nat)
    (hM : 0 ≤ cfg.maxRetries) (ha : attemptCount ≤ cfg.maxRetries.toNat) :
    (roundTripLoop cfg o req br pos false attemptCount).attempts ≤ cfg.maxRetries.toNat ∨
    ((roundTripLoop cfg o req br pos false attemptCount).attempts = cfg.maxRetries.toNat + 1 ∧
      (roundTripLoop cfg o req br pos false attemptCount).res =
        (o.transport (cfg.maxRetries.toNat + 1)).res ∧
      (roundTripLoop cfg o req br pos false attemptCount).err =
        (match (o.transport (cfg.maxRetries.toNat + 1)).err with
         | some e => some (GoError.join ErrRetriesExhausted e)
         | none => none)) := by
  rw [roundTripLoop]
  dsimp only
  split
  · simp_all
  · split
    · right
      rename_i hge
      have haeq : attemptCount = cfg.maxRetries.toNat := by omega
      subst haeq
      simp
    · rename_i hlt
      split
      · left; simp; omega
      · split
        · split
          · left; simp; omega
          · split
            · left; simp; omega
            · rename_i br bs x hseek hcanc
              have ih := roundTripLoop_exhaustion_char cfg o req (some bs) 0
                (attemptCount + 1) hM (by omega)
              simpa using ih
        · split
          · left; simp; omega
          · have ih := roundTripLoop_exhaustion_char cfg o req none pos
              (attemptCount + 1) hM (by omega)
            simpa using ih
termination_by cfg.maxRetries.toNat + 1 - attemptCount
decreasing_by all_goals omega

/-- The `Attempt` snapshot `RoundTrip` builds from the `n`-th transport
outcome. -/
def mkAttempt (o : RTOracle) (req : Request) (n : Nat) : Attempt :=
  { count := n, req := req, res := (o.transport n).res, err := (o.transport n).err }

/-! ### Claim theorems -/

/-- Claim C1: with the default configuration `maxRetries` resolves to 3, and
for every configured `maxRetries = M ≥ 0`, every oracle (transport outcomes,
seek results, cancellations), every request and every body, one `RoundTrip`
call invokes the underlying round tripper at most `M + 1` times. -/
theorem roundTrip_total_attempts_le_maxRetries_succ :
    effectiveMaxRetries none none = 3 ∧
    ∀ (cfg : TransportConfig) (o : RTOracle) (req : Request) (body : BodySpec),
      0 ≤ cfg.maxRetries →
      ((RoundTrip cfg o req body).attempts : Int) ≤ cfg.maxRetries + 1 := by
  refine ⟨rfl, ?_⟩
  intro cfg o req body hM
  cases body with
  | noBody =>
      have h1 := roundTripLoop_attempts_le cfg o req none 0 false 0
      simp only [RoundTrip]
      simp at h1 ⊢
      omega
  | bytes bs =>
      cases hpr : cfg.preventRetryWithBody with
      | false =>
          have h1 := roundTripLoop_attempts_le cfg o req (some bs) 0 false 0
          simp only [RoundTrip]
          simp [hpr] at h1 ⊢
          omega
      | true =>
          have h1 := roundTripLoop_attempts_le cfg o req none 0 true 0
          have hbne : (BodySpec.bytes bs != BodySpec.noBody) = true := rfl
          simp only [RoundTrip]
          simp [hpr, hbne] at h1 ⊢
          omega
  | failing e =>
      cases hpr : cfg.preventRetryWithBody with
      | false =>
          simp only [RoundTrip]
          simp [hpr]
          omega
      | true =>
          have h1 := roundTripLoop_attempts_le cfg o req none 0 true 0
          have hbne : (BodySpec.failing e != BodySpec.noBody) = true := rfl
          simp only [RoundTrip]
          simp [hpr, hbne] at h1 ⊢
          omega

/-- Claim C4: when the attempt limit is reached (the call made
`maxRetries + 1` attempts) and the final attempt errored, `RoundTrip`
returns that error joined with `ErrRetriesExhausted`, with both the marker
and the original error still found by `errors.Is`; a final attempt with no
error has its response returned with a nil error, unannotated. -/
theorem roundTrip_exhaustion_annotates_error (cfg : TransportConfig) (o : RTOracle)
    (req : Request) (body : BodySpec)
    (hpr : cfg.preventRetryWithBody = false) (hM : 0 ≤ cfg.maxRetries)
    (hatt : (RoundTrip cfg o req body).attempts = cfg.maxRetries.toNat + 1) :
    (RoundTrip cfg o req body).res = (o.transport (cfg.maxRetries.toNat + 1)).res ∧
    ((o.transport (cfg.maxRetries.toNat + 1)).err = none →
      (RoundTrip cfg o req body).err = none) ∧
    ∀ e, (o.transport (cfg.maxRetries.toNat + 1)).err = some e →
      (RoundTrip cfg o req body).err = some (GoError.join ErrRetriesExhausted e) ∧
      errorsIs (GoError.join ErrRetriesExhausted e) ErrRetriesExhausted = true ∧
      errorsIs (GoError.join ErrRetriesExhausted e) e = true := by
  have hjoin1 : ∀ e, errorsIs (GoError.join ErrRetriesExhausted e) ErrRetriesExhausted = true := by
    intro e; simp [errorsIs, ErrRetriesExhausted]
  have hjoin2 : ∀ e, errorsIs (GoError.join ErrRetriesExhausted e) e = true := by
    intro e; simp [errorsIs, errorsIs_self]
  cases body with
  | noBody =>
      simp only [RoundTrip] at hatt ⊢
      simp at hatt ⊢
      rcases roundTripLoop_exhaustion_char cfg o req none 0 0 hM (by omega) with h | ⟨h1, h2, h3⟩
      · omega
      · refine ⟨h2, ?_, ?_⟩
        · intro hnone; rw [h3, hnone]
        · intro e he; rw [h3, he]; exact ⟨rfl, hjoin1 e, hjoin2 e⟩
  | bytes bs =>
      simp only [RoundTrip] at hatt ⊢
      simp [hpr] at hatt ⊢
      rcases roundTripLoop_exhaustion_char cfg o req (some bs) 0 0 hM (by omega) with
        h | ⟨h1, h2, h3⟩
      · omega
      · refine ⟨h2, ?_, ?_⟩
        · intro hnone; rw [h3, hnone]
        · intro e he; rw [h3, he]; exact ⟨rfl, hjoin1 e, hjoin2 e⟩
  | failing e =>
      simp only [RoundTrip] at hatt
      simp [hpr] at hatt

/-- Claim C7: a request with a body while `preventRetryWithBody` is in force
gets exactly one attempt whose outcome is returned as-is — no exhaustion
annotation, no buffering (the raw stream is passed through), and neither the
retry policy nor the delay policy is ever consulted. -/
theorem roundTrip_preventRetryWithBody_single_attempt (cfg : TransportConfig)
    (o : RTOracle) (req : Request) (body : BodySpec)
    (hpr : cfg.preventRetryWithBody = true) (hbody : body ≠ BodySpec.noBody) :
    RoundTrip cfg o req body =
      { res := (o.transport 1).res, err := (o.transport 1).err, attempts := 1,
        sent := [none], retryConsults := [], delayConsults := [] } := by
  cases body with
  | noBody => exact absurd rfl hbody
  | bytes bs =>
      have hbne : (BodySpec.bytes bs != BodySpec.noBody) = true := rfl
      simp [RoundTrip, hbne, hpr]
      rw [roundTripLoop]
      simp
  | failing e =>
      have hbne : (BodySpec.failing e != BodySpec.noBody) = true := rfl
      simp [RoundTrip, hbne, hpr]
      rw [roundTripLoop]
      simp

/-- Claim C8: when the parent context's cancellation wins the inter-attempt
delay race after the first attempt, the call returns immediately with a nil
response and the context's own error unchanged, having made exactly one
attempt. -/
theorem roundTrip_parent_cancellation_aborts (cfg : TransportConfig) (o : RTOracle)
    (req : Request) (hM : 0 < cfg.maxRetries)
    (hretry : cfg.shouldRetryFn (mkAttempt o req 1) = true)
    (hcanc : o.cancelled 1 = true) :
    RoundTrip cfg o req BodySpec.noBody =
      { res := none, err := some o.ctxErr, attempts := 1, sent := [none],
        retryConsults := [mkAttempt o req 1], delayConsults := [mkAttempt o req 1] } := by
  have hg : ¬(cfg.maxRetries ≤ 0) := by omega
  simp [RoundTrip]
  rw [roundTripLoop]
  simp only [mkAttempt] at hretry
  simp [hretry, hcanc, hg, mkAttempt]

/-- Claim C5: with retries not prevented, every attempt of a bodied request
reads exactly the byte sequence buffered before the first attempt (the
buffered reader is rewound to offset 0 before each retry); and when the
rewind fails after an attempt that would have been retried, the call aborts
at once, returning an error wrapping the `ErrSeekingBody` sentinel. -/
theorem roundTrip_buffered_body_replayed_and_seek_abort :
    (∀ (cfg : TransportConfig) (o : RTOracle) (req : Request) (bs : List Nat),
      cfg.preventRetryWithBody = false →
      ∀ x ∈ (RoundTrip cfg o req (BodySpec.bytes bs)).sent, x = some bs) ∧
    (∀ (cfg : TransportConfig) (o : RTOracle) (req : Request) (bs : List Nat),
      cfg.preventRetryWithBody = false →
      0 < cfg.maxRetries →
      cfg.shouldRetryFn (mkAttempt o req 1) = true →
      ∀ e, o.seekErr 1 = some e →
        (RoundTrip cfg o req (BodySpec.bytes bs)).attempts = 1 ∧
        (RoundTrip cfg o req (BodySpec.bytes bs)).err = some (GoError.wrap ErrSeekingBody) ∧
        errorsIs (GoError.wrap ErrSeekingBody) ErrSeekingBody = true) := by
  constructor
  · intro cfg o req bs hpr
    simp only [RoundTrip]
    simp [hpr]
    have h2 := roundTripLoop_sent_eq cfg o req bs false 0
    simpa using h2
  · intro cfg o req bs hpr hM hretry e hseek
    simp only [RoundTrip]
    rw [roundTripLoop]
    have hg : ¬(cfg.maxRetries ≤ 0) := by omega
    simp only [mkAttempt] at hretry
    simp [hpr, hretry, hseek, hg, errorsIs, ErrSeekingBody]

/-- The default idempotent-method set makes `guessIdempotent` agree with the
spec's wording. -/
theorem guessIdempotent_default_eq_spec (req : Request) :
    guessIdempotent req ["GET", "HEAD", "OPTIONS", "TRACE", "PUT", "DELETE"] =
      specGuessIdempotent req := by
  by_cases h1 : headerGet req.header "Idempotency-Key" = "" <;>
    by_cases h2 : headerGet req.header "X-Idempotency-Key" = "" <;>
      simp [guessIdempotent, specGuessIdempotent, h1, h2]

/-- Claim C3: the default retry policy decides exactly as the spec states —
with an error, retry iff it is a DNS error or the request is guessed
idempotent and the error is timeout-class; with no error, retry
unconditionally on 429 or a Retry-After header, else iff guessed idempotent
and the status is in the default retryable set 502, 503 — with idempotency
guessed from the two key headers or the RFC 9110 method list. -/
theorem defaultShouldRetryFn_eq_spec (attempt : Attempt) :
    DefaultShouldRetryFn attempt = specDefaultRetryDecision attempt := by
  obtain ⟨c, req, res, err⟩ := attempt
  cases err with
  | some e =>
      cases hd : IsDNSErr e <;>
        simp [DefaultShouldRetryFn, CustomizedShouldRetryFn, specDefaultRetryDecision,
          hd, guessIdempotent_default_eq_spec]
  | none =>
      cases res with
      | none =>
          simp [DefaultShouldRetryFn, CustomizedShouldRetryFn, specDefaultRetryDecision]
      | some r =>
          by_cases h429 : r.statusCode = 429 ∨ headerGet r.header "Retry-After" ≠ ""
          · simp [DefaultShouldRetryFn, CustomizedShouldRetryFn, specDefaultRetryDecision,
              h429]
          · by_cases h2 : r.statusCode = 502 <;> by_cases h3 : r.statusCode = 503 <;>
              simp [DefaultShouldRetryFn, CustomizedShouldRetryFn, specDefaultRetryDecision,
                h429, guessIdempotent_default_eq_spec, List.contains, h2, h3]

/-- Claim C10: the default retry policy's decision is defined (no nil
dereference) for every attempt in which a nil error comes with a non-nil
response — the shape `RoundTrip` produces when the underlying transport
honours the `http.RoundTripper` contract — and is undefined exactly on an
attempt with both `Err` and `Res` nil. -/
theorem customizedShouldRetryFn_total_iff_res_present :
    (∀ (options : CustomizedShouldRetryFnOptions) (a : Attempt),
      (a.err = none → a.res.isSome) → (CustomizedShouldRetryFn options a).isSome) ∧
    (∀ (options : CustomizedShouldRetryFnOptions) (c : Nat) (req : Request),
      CustomizedShouldRetryFn options { count := c, req := req, res := none, err := none } =
        none) := by
  constructor
  · intro options a h
    obtain ⟨c, req, res, err⟩ := a
    cases err with
    | some e => simp [CustomizedShouldRetryFn]; split <;> simp
    | none =>
        cases res with
        | none => simpa using h rfl
        | some r => simp [CustomizedShouldRetryFn]; split <;> simp
  · intro options c req
    simp [CustomizedShouldRetryFn]

/-- The full-jitter draw stays strictly below `min cap (base · 2^(count−1))`
whenever the `Int63n` oracle honours its contract and base and cap are
positive. -/
theorem expBackoff_bound (r : Nat → Nat) (count base capd : Nat)
    (hr : ∀ m, 0 < m → r m < m) (hbase : 0 < base) (hcap : 0 < capd) :
    expBackoff r count base capd < min capd (base * 2 ^ (count - 1)) := by
  have hv : 0 < base * 2 ^ (count - 1) := Nat.mul_pos hbase (Nat.pos_pow_of_pos _ (by omega))
  exact hr _ (by omega)

/-- With no Retry-After header — response absent, header absent, or header
unparseable both as an integer and as an HTTP date — the delay policy falls
through to exponential backoff. -/
theorem customizedDelayFn_no_retry_after (untilDate : String → Option Int) (jd coin : ℚ)
    (r : Nat → Nat) (opts : CustomizedDelayFnOptions) (a : Attempt)
    (hra : ∀ res, a.res = some res →
      headerGet res.header "Retry-After" = "" ∨
      (atoi (headerGet res.header "Retry-After") = none ∧
        untilDate (headerGet res.header "Retry-After") = none)) :
    CustomizedDelayFn untilDate jd coin r opts a =
      (expBackoff r a.count opts.base opts.capd : Int) := by
  obtain ⟨c, req, res, err⟩ := a
  cases res with
  | none => simp only [CustomizedDelayFn]
  | some rs =>
      simp only [CustomizedDelayFn]
      by_cases hh : headerGet rs.header "Retry-After" = ""
      · rw [if_neg (by simp [hh])]
      · rcases hra rs rfl with hempty | ⟨hatoi, hdate⟩
        · exact absurd hempty hh
        · rw [if_pos hh, hatoi, hdate]

/-- Claim C6: for every attempt whose response carries no (or a malformed)
Retry-After header, the default delay policy's result lies in
`[0, min(cap, base · 2^(count−1))]` for every random draw; with the default
base 250ms and cap 10s, count 3 gives at most 1s and count 100 at most 10s
(the cap). -/
theorem delayFn_backoff_within_bound :
    (∀ (untilDate : String → Option Int) (jd coin : ℚ) (r : Nat → Nat)
        (opts : CustomizedDelayFnOptions) (a : Attempt),
      (∀ m, 0 < m → r m < m) → 0 < opts.base → 0 < opts.capd → 1 ≤ a.count →
      (∀ res, a.res = some res →
          headerGet res.header "Retry-After" = "" ∨
          (atoi (headerGet res.header "Retry-After") = none ∧
            untilDate (headerGet res.header "Retry-After") = none)) →
      0 ≤ CustomizedDelayFn untilDate jd coin r opts a ∧
      CustomizedDelayFn untilDate jd coin r opts a ≤
        ((min opts.capd (opts.base * 2 ^ (a.count - 1)) : Nat) : Int)) ∧
    (∀ (untilDate : String → Option Int) (jd coin : ℚ) (r : Nat → Nat) (a : Attempt),
      (∀ m, 0 < m → r m < m) → a.res = none → a.count = 3 →
      0 ≤ DefaultDelayFn untilDate jd coin r a ∧
      DefaultDelayFn untilDate jd coin r a ≤ 1000000000) ∧
    (∀ (untilDate : String → Option Int) (jd coin : ℚ) (r : Nat → Nat) (a : Attempt),
      (∀ m, 0 < m → r m < m) → a.res = none → a.count = 100 →
      0 ≤ DefaultDelayFn untilDate jd coin r a ∧
      DefaultDelayFn untilDate jd coin r a ≤ 10000000000) := by
  have main : ∀ (untilDate : String → Option Int) (jd coin : ℚ) (r : Nat → Nat)
      (opts : CustomizedDelayFnOptions) (a : Attempt),
      (∀ m, 0 < m → r m < m) → 0 < opts.base → 0 < opts.capd →
      (∀ res, a.res = some res →
          headerGet res.header "Retry-After" = "" ∨
          (atoi (headerGet res.header "Retry-After") = none ∧
            untilDate (headerGet res.header "Retry-After") = none)) →
      0 ≤ CustomizedDelayFn untilDate jd coin r opts a ∧
      CustomizedDelayFn untilDate jd coin r opts a ≤
        ((min opts.capd (opts.base * 2 ^ (a.count - 1)) : Nat) : Int) := by
    intro untilDate jd coin r opts a hr hbase hcap hra
    have hb := expBackoff_bound r a.count opts.base opts.capd hr hbase hcap
    rw [customizedDelayFn_no_retry_after untilDate jd coin r opts a hra]
    constructor
    · exact_mod_cast Nat.zero_le _
    · exact_mod_cast Nat.le_of_lt hb
  refine ⟨fun u jd coin r opts a hr hbase hcap _ hra =>
      main u jd coin r opts a hr hbase hcap hra, ?_, ?_⟩
  · intro untilDate jd coin r a hr hres hc
    have h := main untilDate jd coin r
      { base := 250000000, capd := 10000000000, jitterMagnitude := 333 / 1000 } a hr
      (by norm_num) (by norm_num)
      (by intro res hres2; rw [hres] at hres2; exact absurd hres2 (by simp))
    rw [hc] at h
    have hmin : min 10000000000 (250000000 * 2 ^ (3 - 1)) = 1000000000 := by norm_num
    rw [hmin] at h
    exact_mod_cast h
  · intro untilDate jd coin r a hr hres hc
    have h := main untilDate jd coin r
      { base := 250000000, capd := 10000000000, jitterMagnitude := 333 / 1000 } a hr
      (by norm_num) (by norm_num)
      (by intro res hres2; rw [hres] at hres2; exact absurd hres2 (by simp))
    rw [hc] at h
    have hmin : min 10000000000 (250000000 * 2 ^ (100 - 1)) = 10000000000 := by norm_num
    rw [hmin] at h
    exact_mod_cast h

/-- Claim C2 (what the code actually does): in a counter state where
`retried/total` exceeds the retry budget, `ShouldThrottle` on a retry
attempt (`Count > 1`) returns `false` — it does not throttle — for every
random draw. The spec and claim say it should return `true` there; the
budget branch of throttler.go returns the inverted value. -/
theorem shouldThrottle_over_budget_retry_returns_false (randDraw : ℚ) :
    ShouldThrottle
      { totalReqs := 10, overloadedReqs := 0, retriedReqs := 5, k := 2, retryBudget := 1 / 10 }
      randDraw
      { count := 2, req := { method := "GET", header := [] }, res := none, err := none } =
      false := by
  simp [ShouldThrottle, isAttemptRetry]
  norm_num

/-- Claim C9, counterexample: after a second `Close` the captured
cancellation handle has been invoked twice — `cancelReader.Close` calls
`cr.cancel()` unconditionally on every close, so "at most once" fails. -/
theorem cancelReader_second_close_invokes_cancel_again :
    ¬((cancelReaderClose (cancelReaderClose
        { cancelCalls := 0, ctxCancelled := false, underlyingCloses := 0 })).cancelCalls ≤ 1) := by
  decide

/-- Claim C9 (amended): every `Close` of the wrapper invokes the captured
cancellation handle once more and closes the underlying body once more;
because cancelling a context is idempotent, the context is cancelled from
the first `Close` on and later `Close` calls leave the cancellation state
unchanged. -/
theorem cancelReader_close_effect_idempotent (s : CancelState) :
    cancelReaderClose s =
      { cancelCalls := s.cancelCalls + 1, ctxCancelled := true,
        underlyingCloses := s.underlyingCloses + 1 } ∧
    (cancelReaderClose (cancelReaderClose s)).ctxCancelled =
      (cancelReaderClose s).ctxCancelled := by
  exact ⟨rfl, rfl⟩

/-! ### Concrete instances for the witness theorems -/

/-- A concrete GET request with no headers. -/
def reqW : Request := { method := "GET", header := [] }

/-- A concrete resolved configuration: `maxRetries = 3`, a policy that
always retries, zero delay, retries with a body allowed. -/
def cfgW : TransportConfig :=
  { maxRetries := 3, shouldRetryFn := fun _ => true, delayFn := fun _ => 0
    preventRetryWithBody := false }

/-- `cfgW` with retries on bodied requests prevented. -/
def cfgWPrevent : TransportConfig :=
  { maxRetries := 3, shouldRetryFn := fun _ => true, delayFn := fun _ => 0
    preventRetryWithBody := true }

/-- `cfgW` with no retries allowed at all. -/
def cfgWZero : TransportConfig :=
  { maxRetries := 0, shouldRetryFn := fun _ => true, delayFn := fun _ => 0
    preventRetryWithBody := false }

/-- An oracle whose transport always fails with a timeout-class network
error; seeks succeed and the parent context never fires. -/
def oW : RTOracle :=
  { transport := fun _ => { res := none, err := some (GoError.netError true) }
    seekErr := fun _ => none, cancelled := fun _ => false
    ctxErr := GoError.basic "context canceled" }

/-- `oW` with the parent context's cancellation winning every delay race. -/
def oWCancel : RTOracle :=
  { transport := fun _ => { res := none, err := some (GoError.netError true) }
    seekErr := fun _ => none, cancelled := fun _ => true
    ctxErr := GoError.basic "context canceled" }

/-- `oW` with every rewind of the buffered body failing. -/
def oWSeekFail : RTOracle :=
  { transport := fun _ => { res := none, err := some (GoError.netError true) }
    seekErr := fun _ => some (GoError.basic "seek failed"), cancelled := fun _ => false
    ctxErr := GoError.basic "context canceled" }

/-- Witness for C1: at `maxRetries = 3` and an always-retry policy the call
makes at most 4 attempts. -/
theorem roundTrip_total_attempts_le_maxRetries_succ_witness :
    ((RoundTrip cfgW oW reqW BodySpec.noBody).attempts : Int) ≤ 3 + 1 :=
  roundTrip_total_attempts_le_maxRetries_succ.2 cfgW oW reqW BodySpec.noBody (by decide)

/-- Witness for C4 at `maxRetries = 0` and a transport that always fails:
the sole attempt's error comes back joined with `ErrRetriesExhausted`. -/
theorem roundTrip_exhaustion_annotates_error_witness :
    (RoundTrip cfgWZero oW reqW BodySpec.noBody).res =
      (oW.transport (cfgWZero.maxRetries.toNat + 1)).res ∧
    ((oW.transport (cfgWZero.maxRetries.toNat + 1)).err = none →
      (RoundTrip cfgWZero oW reqW BodySpec.noBody).err = none) ∧
    ∀ e, (oW.transport (cfgWZero.maxRetries.toNat + 1)).err = some e →
      (RoundTrip cfgWZero oW reqW BodySpec.noBody).err =
        some (GoError.join ErrRetriesExhausted e) ∧
      errorsIs (GoError.join ErrRetriesExhausted e) ErrRetriesExhausted = true ∧
      errorsIs (GoError.join ErrRetriesExhausted e) e = true :=
  roundTrip_exhaustion_annotates_error cfgWZero oW reqW BodySpec.noBody rfl (by decide)
    (by simp [RoundTrip, cfgWZero]; rw [roundTripLoop]; simp [cfgWZero])

/-- Witness for C7: a bodied request under `cfgWPrevent` gets exactly one
attempt, returned as-is, with no buffering and no policy consultation. -/
theorem roundTrip_preventRetryWithBody_single_attempt_witness :
    RoundTrip cfgWPrevent oW reqW (BodySpec.bytes [1, 2, 3]) =
      { res := (oW.transport 1).res, err := (oW.transport 1).err, attempts := 1,
        sent := [none], retryConsults := [], delayConsults := [] } :=
  roundTrip_preventRetryWithBody_single_attempt cfgWPrevent oW reqW
    (BodySpec.bytes [1, 2, 3]) rfl (by decide)

/-- Witness for C8: with cancellation firing during the first delay wait,
the call stops after one attempt and surfaces the context's error. -/
theorem roundTrip_parent_cancellation_aborts_witness :
    RoundTrip cfgW oWCancel reqW BodySpec.noBody =
      { res := none, err := some oWCancel.ctxErr, attempts := 1, sent := [none],
        retryConsults := [mkAttempt oWCancel reqW 1]
        delayConsults := [mkAttempt oWCancel reqW 1] } :=
  roundTrip_parent_cancellation_aborts cfgW oWCancel reqW (by decide) rfl rfl

/-- Witness for C5 (the seek-abort conjunct, at a failing rewind after an
always-retry first attempt). -/
theorem roundTrip_buffered_body_replayed_and_seek_abort_witness :
    (RoundTrip cfgW oWSeekFail reqW (BodySpec.bytes [9])).attempts = 1 ∧
    (RoundTrip cfgW oWSeekFail reqW (BodySpec.bytes [9])).err =
      some (GoError.wrap ErrSeekingBody) ∧
    errorsIs (GoError.wrap ErrSeekingBody) ErrSeekingBody = true :=
  roundTrip_buffered_body_replayed_and_seek_abort.2 cfgW oWSeekFail reqW [9] rfl
    (by decide) rfl (GoError.basic "seek failed") rfl

/-- Witness for C3: the spec decision and the code decision agree on a
concrete non-idempotent attempt with a retryable status. -/
theorem defaultShouldRetryFn_eq_spec_witness :
    DefaultShouldRetryFn
        { count := 1, req := { method := "POST", header := [] }
          res := some { statusCode := 503, header := [] }, err := none } =
      specDefaultRetryDecision
        { count := 1, req := { method := "POST", header := [] }
          res := some { statusCode := 503, header := [] }, err := none } :=
  defaultShouldRetryFn_eq_spec _

/-- Witness for C10: the policy is defined at a concrete attempt with a nil
error and a present response. -/
theorem customizedShouldRetryFn_total_iff_res_present_witness :
    (CustomizedShouldRetryFn
        { idempotentMethods := ["GET"], retryableStatusCodes := [503] }
        { count := 1, req := reqW, res := some { statusCode := 200, header := [] }
          err := none }).isSome :=
  customizedShouldRetryFn_total_iff_res_present.1 _ _ (fun _ => rfl)

/-- Witness for C6: at count 3 with the defaults and a concrete in-contract
draw oracle, the delay is within `[0, 1s]`. -/
theorem delayFn_backoff_within_bound_witness :
    0 ≤ DefaultDelayFn (fun _ => none) 0 0 (fun m => m - 1)
        { count := 3, req := reqW, res := none, err := none } ∧
    DefaultDelayFn (fun _ => none) 0 0 (fun m => m - 1)
        { count := 3, req := reqW, res := none, err := none } ≤ 1000000000 :=
  delayFn_backoff_within_bound.2.1 (fun _ => none) 0 0 (fun m => m - 1)
    { count := 3, req := reqW, res := none, err := none }
    (fun _ hm => Nat.sub_lt hm Nat.one_pos) rfl rfl

end Retryhttp
